import Mathlib

/-!
Verification of the janua OAuth2/OIDC provider core.

This file gives a shallow embedding, in Lean 4, of the access-control core of
the janua identity platform: the OAuth2 provider endpoints
(`apps/api/app/routers/v1/oauth_provider.py`), the organizations permission
dependencies (`apps/api/app/routers/v1/organizations/dependencies.py`), and the
cache service (`apps/api/app/services/cache_service.py`), together with models
of collaborators that the repository declares but whose sources are not part of
the audited tree (the JWT manager, the RBAC service, and the SQLAlchemy
`User` / `OAuthClient` models); those models are built from the written
specification and are marked `Modelled from the spec:` in their doc comments.

Conventions of the embedding:
* Python strings are Lean `String`s; `bytes` are `List Nat` with each entry a
  byte value.
* Python `Optional[T]` is `Option T`; Python truthiness of an optional string
  (`if x:`) is `pyTruthy`, which is false for `None` and for the empty string.
* Redis, reached through the resilient client, is modelled as the association
  list of live keys at the moment of a call; a handler that mutates Redis is a
  function from the store to the store.
* `async` plays no semantic role in the handlers below (each performs its
  awaits in program order against the store it was given), so handlers are
  ordinary functions.
* `HTTPException(status_code, detail)` is the `HTTPError` structure; a handler
  that can raise returns `Except HTTPError α`.
-/

set_option maxRecDepth 10000

/-- Python truthiness of an optional string: `None` and `""` are falsy. -/
def pyTruthy : Option String → Bool
  | none => false
  | some s => s != ""

/-- Python `x or default` on an optional string: the default replaces `None`
and the empty string. -/
def pyOr (x : Option String) (d : String) : String :=
  match x with
  | none => d
  | some s => if s == "" then d else s

/-- Boolean prefix test on character lists (helper for the substring test). -/
def prefixCheck : List Char → List Char → Bool
  | [], _ => true
  | _ :: _, [] => false
  | a :: as, b :: bs => a == b && prefixCheck as bs

/-- Boolean contiguous-substring test on character lists. -/
def infixCheck : List Char → List Char → Bool
  | n, [] => prefixCheck n []
  | n, c :: hs => prefixCheck n (c :: hs) || infixCheck n hs

/-- Python `needle in hay` on strings: contiguous substring containment. -/
def pyIn (needle hay : String) : Bool :=
  infixCheck needle.toList hay.toList

/-- ASCII bytes of a string, modelling Python `s.encode("ascii")` for the
ASCII strings the OAuth flows exchange. -/
def strBytes (s : String) : List Nat :=
  s.toList.map Char.toNat

-- ============================================================================
-- SHA-256 (hashlib.sha256), executable, over byte lists
-- ============================================================================

/-- 2^32, the word modulus of SHA-256. -/
def M32 : Nat := 4294967296

/-- Right rotation of a 32-bit word. -/
def rotr32 (n x : Nat) : Nat :=
  ((x >>> n) ||| (x <<< (32 - n))) % M32

/-- SHA-256 Ch function. -/
def shaCh (x y z : Nat) : Nat :=
  (x &&& y) ^^^ ((x ^^^ 4294967295) &&& z)

/-- SHA-256 Maj function. -/
def shaMaj (x y z : Nat) : Nat :=
  (x &&& y) ^^^ (x &&& z) ^^^ (y &&& z)

/-- SHA-256 big Sigma-0. -/
def bigSigma0 (x : Nat) : Nat :=
  rotr32 2 x ^^^ rotr32 13 x ^^^ rotr32 22 x

/-- SHA-256 big Sigma-1. -/
def bigSigma1 (x : Nat) : Nat :=
  rotr32 6 x ^^^ rotr32 11 x ^^^ rotr32 25 x

/-- SHA-256 small sigma-0. -/
def smallSigma0 (x : Nat) : Nat :=
  rotr32 7 x ^^^ rotr32 18 x ^^^ (x >>> 3)

/-- SHA-256 small sigma-1. -/
def smallSigma1 (x : Nat) : Nat :=
  rotr32 17 x ^^^ rotr32 19 x ^^^ (x >>> 10)

/-- The 64 SHA-256 round constants. -/
def shaK : List Nat :=
  [1116352408, 1899447441, 3049323471, 3921009573,
   961987163, 1508970993, 2453635748, 2870763221,
   3624381080, 310598401, 607225278, 1426881987,
   1925078388, 2162078206, 2614888103, 3248222580,
   3835390401, 4022224774, 264347078, 604807628,
   770255983, 1249150122, 1555081692, 1996064986,
   2554220882, 2821834349, 2952996808, 3210313671,
   3336571891, 3584528711, 113926993, 338241895,
   666307205, 773529912, 1294757372, 1396182291,
   1695183700, 1986661051, 2177026350, 2456956037,
   2730485921, 2820302411, 3259730800, 3345764771,
   3516065817, 3600352804, 4094571909, 275423344,
   430227734, 506948616, 659060556, 883997877,
   958139571, 1322822218, 1537002063, 1747873779,
   1955562222, 2024104815, 2227730452, 2361852424,
   2428436474, 2756734187, 3204031479, 3329325298]

/-- The SHA-256 initial hash state. -/
def shaH0 : List Nat :=
  [1779033703, 3144134277, 1013904242, 2773480762,
   1359893119, 2600822924, 528734635, 1541459225]

/-- A natural as `k` big-endian bytes. -/
def lenBytesBE : Nat → Nat → List Nat
  | 0, _ => []
  | k + 1, n => lenBytesBE k (n / 256) ++ [n % 256]

/-- SHA-256 message padding: append `0x80`, zeros, then the 64-bit big-endian
bit length, reaching a multiple of 64 bytes. -/
def shaPad (msg : List Nat) : List Nat :=
  let L := msg.length
  let zeros := (64 - ((L + 9) % 64)) % 64
  msg ++ 0x80 :: List.replicate zeros 0 ++ lenBytesBE 8 (8 * L)

/-- Group bytes into big-endian 32-bit words. -/
def bytesToWords : List Nat → List Nat
  | a :: b :: c :: d :: rest =>
      (((a * 256 + b) * 256 + c) * 256 + d) :: bytesToWords rest
  | _ => []

/-- Group a word list into 16-word blocks (the padded message is always a
whole number of blocks). -/
def words16 : List Nat → List (List Nat)
  | w0 :: w1 :: w2 :: w3 :: w4 :: w5 :: w6 :: w7 ::
    w8 :: w9 :: w10 :: w11 :: w12 :: w13 :: w14 :: w15 :: rest =>
      [w0, w1, w2, w3, w4, w5, w6, w7,
       w8, w9, w10, w11, w12, w13, w14, w15] :: words16 rest
  | _ => []

/-- Extend a 16-word block to the 64-word message schedule; the fuel counts
the words still to append. -/
def shaExtend : Nat → List Nat → List Nat
  | 0, ws => ws
  | n + 1, ws =>
      let t := ws.length
      let w := (smallSigma1 (ws.getD (t - 2) 0) + ws.getD (t - 7) 0 +
                smallSigma0 (ws.getD (t - 15) 0) + ws.getD (t - 16) 0) % M32
      shaExtend n (ws ++ [w])

/-- One SHA-256 compression round on the eight working registers. -/
def shaRound (kw : Nat × Nat) (r : List Nat) : List Nat :=
  let a := r.getD 0 0
  let b := r.getD 1 0
  let c := r.getD 2 0
  let d := r.getD 3 0
  let e := r.getD 4 0
  let f := r.getD 5 0
  let g := r.getD 6 0
  let h := r.getD 7 0
  let t1 := (h + bigSigma1 e + shaCh e f g + kw.1 + kw.2) % M32
  let t2 := (bigSigma0 a + shaMaj a b c) % M32
  [(t1 + t2) % M32, a, b, c, (d + t1) % M32, e, f, g]

/-- Compress one 16-word block into the running hash state. -/
def shaCompress (st : List Nat) (block : List Nat) : List Nat :=
  let ws := shaExtend 48 block
  let r := (shaK.zip ws).foldl (fun acc kw => shaRound kw acc) st
  (st.zip r).map (fun p => (p.1 + p.2) % M32)

/-- SHA-256 digest of a byte list, as 32 bytes. -/
def sha256 (msg : List Nat) : List Nat :=
  let final := (words16 (bytesToWords (shaPad msg))).foldl shaCompress shaH0
  final.foldr (fun w acc => lenBytesBE 4 w ++ acc) []

-- ============================================================================
-- base64url without padding (base64.urlsafe_b64encode(...).rstrip(b"="))
-- ============================================================================

/-- The URL-safe base64 alphabet. -/
def b64Alphabet : List Char :=
  "ABCDEFGHIJKLMNOPQRSTUVWXYZabcdefghijklmnopqrstuvwxyz0123456789-_".toList

/-- The URL-safe base64 character for a 6-bit value. -/
def b64Char (n : Nat) : Char :=
  b64Alphabet.getD n 'A'

/-- URL-safe base64 of a byte list, with the `=` padding already stripped. -/
def b64urlChars : List Nat → List Char
  | a :: b :: c :: rest =>
      b64Char (a / 4) :: b64Char ((a % 4) * 16 + b / 16) ::
      b64Char ((b % 16) * 4 + c / 64) :: b64Char (c % 64) :: b64urlChars rest
  | [a, b] =>
      [b64Char (a / 4), b64Char ((a % 4) * 16 + b / 16), b64Char ((b % 16) * 4)]
  | [a] =>
      [b64Char (a / 4), b64Char ((a % 4) * 16)]
  | [] => []

/-- `base64.urlsafe_b64encode(bs).rstrip(b"=").decode("ascii")`. -/
def b64urlNoPad (bs : List Nat) : String :=
  String.mk (b64urlChars bs)

-- ============================================================================
-- PKCE verification (oauth_provider._verify_pkce)
-- ============================================================================

/-- `_verify_pkce` from `oauth_provider.py`: for `S256` the challenge must be
the unpadded URL-safe base64 of the SHA-256 of the ASCII verifier, for `plain`
the verifier itself; any other method fails.  `secrets.compare_digest` is a
(timing-safe) equality, modelled as equality. -/
def verify_pkce (code_verifier code_challenge : String) (method : String) : Bool :=
  if method == "S256" then
    b64urlNoPad (sha256 (strBytes code_verifier)) == code_challenge
  else if method == "plain" then
    code_verifier == code_challenge
  else
    false

-- ============================================================================
-- Redirect URI normalization (oauth_provider._validate_redirect_uri)
-- ============================================================================

/-- Everything before the first occurrence of `c` (the whole list when `c` is
absent). -/
def dropFromChar (c : Char) : List Char → List Char
  | [] => []
  | x :: xs => if x == c then [] else x :: dropFromChar c xs

/-- A character permitted in a URL scheme (RFC 3986 / `urllib.parse`). -/
def isSchemeChar (c : Char) : Bool :=
  c.isAlpha || c.isDigit || c == '+' || c == '-' || c == '.'

/-- Split `scheme :` off the front when a colon is present, the part before it
is nonempty, starts with a letter, and consists of scheme characters, as
`urllib.parse` does; returns the lowercased scheme and the remainder, or
`none` when there is no scheme. -/
def splitScheme (cs : List Char) : Option (List Char × List Char) :=
  let before := cs.takeWhile (fun c => !(c == ':'))
  let after := cs.dropWhile (fun c => !(c == ':'))
  match after with
  | ':' :: rest =>
    match before with
    | [] => none
    | h :: t =>
      if h.isAlpha && (h :: t).all isSchemeChar then
        some ((h :: t).map Char.toLower, rest)
      else
        none
  | _ => none

/-- Take characters of a netloc: everything up to the first `/`. -/
def takeNetloc : List Char → List Char × List Char
  | [] => ([], [])
  | x :: xs =>
    if x == '/' then ([], x :: xs)
    else
      let (n, rest) := takeNetloc xs
      (x :: n, rest)

/-- `urllib.parse.urlparse` restricted to the fields `_validate_redirect_uri`
reads — `(scheme, netloc, path)` — for hierarchical URLs.  The fragment and
query parts, which `urlparse` returns in fields the provider discards, are
split off first; a `//` after the scheme introduces the netloc, which runs to
the next `/`; the path is the rest.  The scheme is lowercased as `urlparse`
does. -/
def urlparse3 (s : String) : String × String × String :=
  let cs := dropFromChar '?' (dropFromChar '#' s.toList)
  let (scheme, rest) :=
    match splitScheme cs with
    | some (sc, r) => (sc, r)
    | none => ([], cs)
  match rest with
  | '/' :: '/' :: r =>
    let (netloc, path) := takeNetloc r
    (String.mk scheme, String.mk netloc, String.mk path)
  | r => (String.mk scheme, "", String.mk r)

/-- Strip all trailing `/` characters (Python `path.rstrip("/")`). -/
def rstripSlash (s : String) : String :=
  String.mk (s.toList.reverse.dropWhile (fun c => c == '/')).reverse

/-- The normalized form `scheme://netloc` + path with trailing slashes
stripped, exactly as built inside `_validate_redirect_uri`. -/
def normalizeUri (u : String) : String :=
  let (scheme, netloc, path) := urlparse3 u
  scheme ++ "://" ++ netloc ++ rstripSlash path

/-- `_validate_redirect_uri` from `oauth_provider.py`: the supplied URI is
accepted exactly when its normalized form equals the normalized form of some
registered URI. -/
def validate_redirect_uri (redirect_uri : String) (allowed_uris : List String) : Bool :=
  allowed_uris.any (fun allowed => normalizeUri redirect_uri == normalizeUri allowed)

-- ============================================================================
-- Data model
-- ============================================================================

/-- Modelled from the spec: §3 `OAuthClient` — "client_id, secret hash(es),
redirect_uris, is_confidential, is_active; secret verified via constant-time
compare" (the SQLAlchemy model file is not part of the audited tree; the
fields are the ones `oauth_provider.py` reads). -/
structure OAuthClient where
  client_id : String
  client_secret : String
  redirect_uris : List String
  is_active : Bool
  is_confidential : Bool
  name : String
deriving DecidableEq, Repr

/-- Modelled from the spec: `OAuthClient.verify_secret`, a constant-time
comparison of the presented secret against the stored one, modelled as
equality. -/
def OAuthClient.verify_secret (c : OAuthClient) (secret : String) : Bool :=
  secret == c.client_secret

/-- Modelled from the spec: §3 `Principal` plus the attributes
`oauth_provider.py` reads off a `User` row (`id`, `email`, `email_verified`,
`name`, `avatar_url`, `updated_at`; the last four are `getattr`-guarded in the
source, hence optional here, with `updated_at` a Unix timestamp). -/
structure User where
  id : String
  email : String
  email_verified : Bool
  name : Option String
  avatar_url : Option String
  updated_at : Option Nat
deriving DecidableEq, Repr

/-- `AUTH_CODE_PREFIX` from `oauth_provider.py`. -/
def AUTH_CODE_PREFIX : String := "oauth:code:"

/-- `AUTH_CODE_TTL` from `oauth_provider.py` (seconds). -/
def AUTH_CODE_TTL : Nat := 600

/-- The JSON document stored under `oauth:code:{code}` (the `code_data` dict
built by `authorize_get` / `authorize_post`). -/
structure AuthCodeData where
  client_id : String
  user_id : String
  redirect_uri : String
  scope : String
  nonce : Option String
  code_challenge : Option String
  code_challenge_method : String
  expires_at : Nat
deriving DecidableEq, Repr

/-- The Redis keyspace holding authorization codes, as the association list of
live keys at the moment of a call (Redis TTL expiry is key disappearance). -/
abbrev AuthCodeStore : Type := List (String × AuthCodeData)

/-- `_store_auth_code`: `redis.set` of the prefixed key; a fresh binding
shadows any previous one, which models Redis overwrite. -/
def store_auth_code (code : String) (data : AuthCodeData) (store : AuthCodeStore) :
    AuthCodeStore :=
  (AUTH_CODE_PREFIX ++ code, data) :: store

/-- `_get_auth_code`: `redis.get` of the prefixed key. -/
def get_auth_code (code : String) (store : AuthCodeStore) : Option AuthCodeData :=
  (store.find? (fun p => p.1 == AUTH_CODE_PREFIX ++ code)).map (fun p => p.2)

/-- `_delete_auth_code`: `redis.delete` of the prefixed key. -/
def delete_auth_code (code : String) (store : AuthCodeStore) : AuthCodeStore :=
  store.filter (fun p => p.1 != AUTH_CODE_PREFIX ++ code)

deriving instance DecidableEq for Except

/-- `HTTPException(status_code, detail)`. -/
structure HTTPError where
  status_code : Nat
  detail : String
deriving DecidableEq, Repr

-- ============================================================================
-- JWT manager (app.core.jwt_manager — not in the audited tree)
-- ============================================================================

/-- Modelled from the spec: §6 JWT claim schema
`{iss, sub, aud, exp, iat, auth_time, scope, client_id, nonce?, at_hash?}` as
used by the provider — the claims a decoded janua JWT carries, restricted to
those the audited handlers read (`token_type` is the internal access/refresh
discriminator the `token_type=` argument of `verify_token` selects on). -/
structure JwtPayload where
  token_type : String
  sub : Option String
  email : Option String
  client_id : Option String
  scope : Option String
  exp : Nat
  iat : Nat
deriving DecidableEq, Repr

/-- Modelled from the spec: a token string is either a JWT correctly signed
with the server key, identified with its decoded payload, or an invalid
string (malformed, or signed with the wrong key). -/
inductive JwtToken where
  | signed (payload : JwtPayload) : JwtToken
  | invalid : JwtToken
deriving DecidableEq, Repr

/-- Modelled from the spec: §4.3 Token Service — "Verification fails closed:
any signature, expiry, issuer, or audience mismatch yields a typed
`TokenError`"; `jwt_manager.verify_token(token, token_type=t)` returns the
payload when the signature is good, the token is of the requested type, and
it has not expired, and raises otherwise (`none` here). -/
def verify_token (tok : JwtToken) (token_type : String) (now : Nat) :
    Option JwtPayload :=
  match tok with
  | .invalid => none
  | .signed p =>
    if p.token_type == token_type && now < p.exp then some p else none

/-- `ACCESS_TOKEN_LIFETIME_SECONDS`: the spec fixes access tokens at ≈ 1 hour,
matching the `expires_in=3600` the token endpoint returns. -/
def ACCESS_TOKEN_TTL : Nat := 3600

/-- `REFRESH_TOKEN_LIFETIME_SECONDS`: the spec fixes refresh tokens at
≈ 30 days. -/
def REFRESH_TOKEN_TTL : Nat := 2592000

/-- Modelled from the spec: `jwt_manager.create_access_token(user_id, email,
additional_claims)` — a signed access token for `sub = user_id` carrying the
additional claims the provider passes (`client_id` and `scope`), expiring one
hour after issuance. -/
def create_access_token (user_id email client_id scope : String) (now : Nat) :
    JwtToken :=
  .signed { token_type := "access", sub := some user_id, email := some email,
            client_id := some client_id, scope := some scope,
            exp := now + ACCESS_TOKEN_TTL, iat := now }

/-- Modelled from the spec: `jwt_manager.create_refresh_token(user_id)` — a
signed refresh token for `sub = user_id`.  The call site in
`_handle_authorization_code_grant` passes only the user id, so the payload
carries no `client_id` and no `scope` claim. -/
def create_refresh_token (user_id : String) (now : Nat) : JwtToken :=
  .signed { token_type := "refresh", sub := some user_id, email := none,
            client_id := none, scope := none,
            exp := now + REFRESH_TOKEN_TTL, iat := now }

-- ============================================================================
-- ID token (oauth_provider._generate_id_token)
-- ============================================================================

/-- The claim set `_generate_id_token` assembles (`at_hash`, a digest of the
serialized compact JWT, is not represented because token strings are
identified with their payloads in this model). -/
structure IdTokenClaims where
  iss : String
  sub : String
  aud : String
  exp : Nat
  iat : Nat
  auth_time : Nat
  email : String
  email_verified : Bool
  name : Option String
  nonce : Option String
deriving DecidableEq, Repr

/-- `_generate_id_token` from `oauth_provider.py`: the OIDC ID-token claim
set for `user`, audience `client_id`, expiring in one hour; the nonce is
included only when truthy. -/
def generate_id_token (user : User) (client_id : String) (nonce : Option String)
    (now : Nat) (base_url : String) : IdTokenClaims :=
  { iss := base_url, sub := user.id, aud := client_id,
    exp := now + 3600, iat := now, auth_time := now,
    email := user.email, email_verified := user.email_verified,
    name := user.name,
    nonce := if pyTruthy nonce then nonce else none }

-- ============================================================================
-- Authorization endpoint (oauth_provider.authorize_get)
-- ============================================================================

/-- The non-error outcomes of `GET /oauth/authorize`: a 302 to the login page,
or a 302 back to the client carrying the fresh code (and the state when it was
supplied); the redirect URLs themselves are `urlencode` assembly and are
represented structurally. -/
inductive AuthorizeAction where
  | redirectToLogin (client_id : String) (client_name : String) : AuthorizeAction
  | redirectWithCode (redirect_uri : String) (code : String)
      (state : Option String) : AuthorizeAction
deriving DecidableEq, Repr

/-- `code_challenge_method not in (None, "S256", "plain")` is false. -/
def methodSupported : Option String → Bool
  | none => true
  | some m => m == "S256" || m == "plain"

/-- `authorize_get` from `oauth_provider.py`.  The database is the list of
registered clients; the authenticated browser user (resolved by
`get_user_from_cookie_or_header`) is `current_user`; the fresh
`secrets.token_urlsafe(32)` value is passed in as `new_code`; the
`last_used_at` touch and commit have no observable effect on the modelled
state and are omitted.  Returns the response (or `HTTPException`) together
with the authorization-code store after the call. -/
def authorize_get (response_type client_id redirect_uri scope : String)
    (state nonce code_challenge code_challenge_method : Option String)
    (clients : List OAuthClient) (current_user : Option User)
    (new_code : String) (now : Nat) (store : AuthCodeStore) :
    Except HTTPError AuthorizeAction × AuthCodeStore :=
  if response_type != "code" then
    (.error ⟨400, "unsupported_response_type: Only 'code' is supported"⟩, store)
  else
    match clients.find? (fun c => c.client_id == client_id) with
    | none => (.error ⟨400, "invalid_client: Unknown client_id"⟩, store)
    | some client =>
      if !client.is_active then
        (.error ⟨400, "invalid_client: Client is disabled"⟩, store)
      else if !validate_redirect_uri redirect_uri client.redirect_uris then
        (.error ⟨400, "invalid_redirect_uri: URI not registered for this client"⟩, store)
      else if pyTruthy code_challenge && !methodSupported code_challenge_method then
        (.error ⟨400, "invalid_request: Unsupported code_challenge_method"⟩, store)
      else
        match current_user with
        | none => (.ok (.redirectToLogin client_id client.name), store)
        | some user =>
          let code_data : AuthCodeData :=
            { client_id := client_id, user_id := user.id,
              redirect_uri := redirect_uri, scope := scope, nonce := nonce,
              code_challenge := code_challenge,
              code_challenge_method := pyOr code_challenge_method "S256",
              expires_at := now + AUTH_CODE_TTL }
          (.ok (.redirectWithCode redirect_uri new_code state),
           store_auth_code new_code code_data store)

-- ============================================================================
-- Token endpoint (oauth_provider._handle_authorization_code_grant /
-- _handle_refresh_token_grant)
-- ============================================================================

/-- The body of a successful `POST /oauth/token`. -/
structure TokenResponse where
  access_token : JwtToken
  token_type : String
  expires_in : Nat
  refresh_token : Option JwtToken
  id_token : Option IdTokenClaims
  scope : String
deriving DecidableEq, Repr

/-- `_handle_authorization_code_grant` from `oauth_provider.py`, called by the
token endpoint after client authentication.  The database user table is
`users`; `base_url` is `settings.BASE_URL` as read by `_generate_id_token`.
Returns the response (or `HTTPException`) together with the
authorization-code store after the call — note the code is deleted before the
user lookup and token issuance, exactly as in the source. -/
def handle_authorization_code_grant (code : Option String)
    (redirect_uri : Option String) (client : OAuthClient)
    (code_verifier : Option String) (users : List User) (now : Nat)
    (base_url : String) (store : AuthCodeStore) :
    Except HTTPError TokenResponse × AuthCodeStore :=
  if !pyTruthy code then
    (.error ⟨400, "invalid_request: code required"⟩, store)
  else
    let c := code.getD ""
    match get_auth_code c store with
    | none => (.error ⟨400, "invalid_grant: Code not found or expired"⟩, store)
    | some code_data =>
      if code_data.client_id != client.client_id then
        (.error ⟨400, "invalid_grant: Code was not issued to this client"⟩, store)
      else if pyTruthy redirect_uri && code_data.redirect_uri != redirect_uri.getD "" then
        (.error ⟨400, "invalid_grant: redirect_uri mismatch"⟩, store)
      else if pyTruthy code_data.code_challenge && !pyTruthy code_verifier then
        (.error ⟨400, "invalid_request: code_verifier required"⟩, store)
      else if pyTruthy code_data.code_challenge && pyTruthy code_verifier &&
          !verify_pkce (code_verifier.getD "") (code_data.code_challenge.getD "")
            code_data.code_challenge_method then
        (.error ⟨400, "invalid_grant: PKCE verification failed"⟩, store)
      else
        let store' := delete_auth_code c store
        match users.find? (fun u => u.id == code_data.user_id) with
        | none => (.error ⟨400, "invalid_grant: User not found"⟩, store')
        | some user =>
          let scope := code_data.scope
          let access_token := create_access_token user.id user.email
            client.client_id scope now
          let refresh_token := create_refresh_token user.id now
          let id_token :=
            if pyIn "openid" scope then
              some (generate_id_token user client.client_id code_data.nonce now base_url)
            else
              none
          (.ok { access_token := access_token, token_type := "Bearer",
                 expires_in := 3600, refresh_token := some refresh_token,
                 id_token := id_token, scope := scope }, store')

/-- `_handle_refresh_token_grant` from `oauth_provider.py`, called by the
token endpoint after client authentication.  `payload.get("client_id")` is an
optional claim compared against the authenticating client's id (absent
compares unequal, as in Python); `payload.get("scope", "openid")` defaults the
scope; the same refresh token is returned. -/
def handle_refresh_token_grant (refresh_token : Option JwtToken)
    (client : OAuthClient) (users : List User) (now : Nat) :
    Except HTTPError TokenResponse :=
  match refresh_token with
  | none => .error ⟨400, "invalid_request: refresh_token required"⟩
  | some tok =>
    match verify_token tok "refresh" now with
    | none => .error ⟨400, "invalid_grant: Invalid refresh token"⟩
    | some payload =>
      if payload.client_id != some client.client_id then
        .error ⟨400, "invalid_grant: Token was not issued to this client"⟩
      else
        match payload.sub.bind (fun uid => users.find? (fun u => u.id == uid)) with
        | none => .error ⟨400, "invalid_grant: User not found"⟩
        | some user =>
          let scope := (payload.scope.getD "openid")
          let access_token := create_access_token user.id user.email
            client.client_id scope now
          .ok { access_token := access_token, token_type := "Bearer",
                expires_in := 3600, refresh_token := some tok,
                id_token := none, scope := scope }

-- ============================================================================
-- UserInfo endpoint (oauth_provider.userinfo)
-- ============================================================================

/-- The `UserInfoResponse` schema: all claims optional except `sub`. -/
structure UserInfoResponse where
  sub : String
  email : Option String
  email_verified : Option Bool
  name : Option String
  given_name : Option String
  family_name : Option String
  picture : Option String
  updated_at : Option Nat
deriving DecidableEq, Repr

/-- Python `name.split(" ", 1)`: the part before the first space, and the rest
when a space exists. -/
def splitFirstSpace : List Char → List Char × Option (List Char)
  | [] => ([], none)
  | c :: cs =>
    if c == ' ' then ([], some cs)
    else
      let (g, f) := splitFirstSpace cs
      (c :: g, f)

/-- `userinfo` from `oauth_provider.py`, after the Bearer header has been
parsed into the token.  The access token must verify and its subject must row
in `users`; the response starts as bare `sub` and gains the email claims when
the scope mentions `email` or `openid`, and the profile claims when it
mentions `profile` or `openid` (`in` is Python substring containment on the
scope string). -/
def userinfo (token : JwtToken) (users : List User) (now : Nat) :
    Except HTTPError UserInfoResponse :=
  match verify_token token "access" now with
  | none => .error ⟨401, "invalid_token: Token expired or invalid"⟩
  | some payload =>
    match payload.sub.bind (fun uid => users.find? (fun u => u.id == uid)) with
    | none => .error ⟨401, "invalid_token: User not found"⟩
    | some user =>
      let scope := payload.scope.getD ""
      let r0 : UserInfoResponse :=
        { sub := user.id, email := none, email_verified := none, name := none,
          given_name := none, family_name := none, picture := none,
          updated_at := none }
      let r1 :=
        if pyIn "email" scope || pyIn "openid" scope then
          { r0 with email := some user.email,
                    email_verified := some user.email_verified }
        else r0
      let r2 :=
        if pyIn "profile" scope || pyIn "openid" scope then
          let nm := user.name
          let gf : Option String × Option String :=
            if pyTruthy nm then
              let (g, f) := splitFirstSpace (nm.getD "").toList
              (some (String.mk g), f.map String.mk)
            else
              (none, none)
          { r1 with name := nm, given_name := gf.1, family_name := gf.2,
                    picture := user.avatar_url, updated_at := user.updated_at }
        else r1
      .ok r2

-- ============================================================================
-- Introspection endpoint (oauth_provider.introspect)
-- ============================================================================

/-- The introspection response: either the bare `{active: false}` document or
the active document with the claims the source copies out of the payload. -/
inductive IntrospectResult where
  | inactive : IntrospectResult
  | active (sub : Option String) (client_id : Option String)
      (scope : Option String) (exp : Option Nat) (iat : Option Nat)
      (token_type : String) : IntrospectResult
deriving DecidableEq, Repr

/-- `introspect` from `oauth_provider.py`.  `client_id` / `client_secret` are
the credentials after the HTTP-Basic fallback has been merged in (the source
decodes the header only when the form field is absent); client authentication
failures raise 401; afterwards the token is verified as the hinted type
(defaulting to `access`), a verifiable token yields the active document and
any verification failure yields exactly `{active: false}`. -/
def introspect (token : JwtToken) (token_type_hint : Option String)
    (client_id : Option String) (client_secret : Option String)
    (clients : List OAuthClient) (now : Nat) :
    Except HTTPError IntrospectResult :=
  if !pyTruthy client_id then
    .error ⟨401, "Client authentication required"⟩
  else
    match clients.find? (fun c => c.client_id == client_id.getD "") with
    | none => .error ⟨401, "invalid_client"⟩
    | some client =>
      if !client.is_active then
        .error ⟨401, "invalid_client"⟩
      else if client.is_confidential &&
          !client.verify_secret (client_secret.getD "") then
        .error ⟨401, "invalid_client"⟩
      else
        let token_type := pyOr token_type_hint "access"
        match verify_token token token_type now with
        | some payload =>
          .ok (.active payload.sub payload.client_id payload.scope
                (some payload.exp) (some payload.iat) token_type)
        | none => .ok .inactive

-- ============================================================================
-- Revocation endpoint (oauth_provider.revoke)
-- ============================================================================

/-- The Redis keyspace a revocation blacklist would live in: jti ↦ remaining
TTL.  `revoke` receives it to make the absence of writes provable. -/
abbrev BlacklistStore : Type := List (String × Nat)

/-- The client-authentication step of `revoke` in `oauth_provider.py`:
credentials are post-Basic merge as in `introspect`, and only a confidential
client presenting a wrong secret fails. -/
def revokeAuthFailed (client_id : Option String) (client_secret : Option String)
    (clients : List OAuthClient) : Bool :=
  if pyTruthy client_id then
    match clients.find? (fun c => c.client_id == client_id.getD "") with
    | some client =>
      client.is_confidential && !client.verify_secret (client_secret.getD "")
    | none => false
  else false

/-- `revoke` from `oauth_provider.py`.  After client authentication the
source returns `{"message": "Token revoked"}` unconditionally — its only
comment says a production blacklist write is yet to be added — so the
blacklist store passes through untouched and the token itself is never
examined. -/
def revoke (token : JwtToken) (client_id : Option String)
    (client_secret : Option String) (clients : List OAuthClient)
    (blacklist : BlacklistStore) : Except HTTPError String × BlacklistStore :=
  if revokeAuthFailed client_id client_secret clients then
    (.error ⟨401, "invalid_client"⟩, blacklist)
  else
    (.ok "Token revoked", blacklist)

-- ============================================================================
-- RBAC role hierarchy (app.services.rbac_service — not in the audited tree)
-- ============================================================================

/-- Modelled from the spec: §4.5 RBAC Engine — "Role hierarchy, strictly
ordered: `super_admin(4) > owner(3) > admin(2) > member(1) > viewer(0)`"
(`rbac_service.ROLE_HIERARCHY`; its unit tests in the audited tree assert the
same five levels). -/
def ROLE_HIERARCHY : List (String × Int) :=
  [("super_admin", 4), ("owner", 3), ("admin", 2), ("member", 1), ("viewer", 0)]

/-- Modelled from the spec: §4.5 — "unknown roles map to level `-1`"
(`rbac_service.get_role_level`). -/
def get_role_level (role : String) : Int :=
  ((ROLE_HIERARCHY.find? (fun p => p.1 == role)).map (fun p => p.2)).getD (-1)

/-- Modelled from the spec: §4.5 — "`has_higher_role(a,b)` is true when
`level(a) >= level(b)` (equal roles count as at least as high)"
(`rbac_service.has_higher_role`). -/
def has_higher_role (a b : String) : Bool :=
  get_role_level b ≤ get_role_level a

-- ============================================================================
-- Cache service (app.services.cache_service.CacheService)
-- ============================================================================

/-- What one call into the underlying Redis client does: returns a value, or
raises. -/
inductive RedisOutcome (α : Type) where
  | ok (v : α) : RedisOutcome α
  | raises : RedisOutcome α
deriving DecidableEq, Repr

/-- `CacheService._get`: `None` without a connection; under the `try`, a raise
becomes `None` (logged cache miss) and a falsy reply is `None`.  The
`_deserialize` step (json.loads with fallback to the raw string, itself
exception-free) is the identity on the raw cached string here. -/
def cache_get (redis : Option Unit) (call : RedisOutcome (Option String)) :
    Option String :=
  match redis with
  | none => none
  | some _ =>
    match call with
    | .raises => none
    | .ok none => none
    | .ok (some s) => if s == "" then none else some s

/-- `CacheService._set`: `False` without a connection; under the `try`, a
raise becomes `False` and a completed `setex` is `True`. -/
def cache_set (redis : Option Unit) (call : RedisOutcome Unit) : Bool :=
  match redis with
  | none => false
  | some _ =>
    match call with
    | .raises => false
    | .ok _ => true

/-- `CacheService._delete`: `False` without a connection; under the `try`, a
raise becomes `False` and a completed `delete` is `True`. -/
def cache_delete (redis : Option Unit) (call : RedisOutcome Unit) : Bool :=
  match redis with
  | none => false
  | some _ =>
    match call with
    | .raises => false
    | .ok _ => true

-- ============================================================================
-- Concrete test fixtures (used by the witness theorems)
-- ============================================================================

/-- A registered public client. -/
def clientApp : OAuthClient :=
  { client_id := "app", client_secret := "s",
    redirect_uris := ["https://app.example.com/cb"], is_active := true,
    is_confidential := false, name := "App" }

/-- A registered user row. -/
def userAnn : User :=
  { id := "u1", email := "ann@example.com", email_verified := true,
    name := some "Ann Lee", avatar_url := some "https://cdn.example.com/a.png",
    updated_at := some 1700000000 }

/-- A stored authorization code without a PKCE challenge. -/
def codeDataA : AuthCodeData :=
  { client_id := "app", user_id := "u1",
    redirect_uri := "https://app.example.com/cb", scope := "openid",
    nonce := none, code_challenge := none, code_challenge_method := "S256",
    expires_at := 600 }

/-- A store holding `codeA`. -/
def storeA : AuthCodeStore := [("oauth:code:codeA", codeDataA)]

/-- The S256 challenge for the verifier `test-code-verifier`. -/
def challengeP : String := "0FLIKahrX7kqxncwhV5WD82lu_wi5GA8FsRSLubaOpU"

/-- A stored authorization code protected by an S256 PKCE challenge. -/
def codeDataP : AuthCodeData :=
  { client_id := "app", user_id := "u1",
    redirect_uri := "https://app.example.com/cb", scope := "openid",
    nonce := none, code_challenge := some challengeP,
    code_challenge_method := "S256", expires_at := 600 }

/-- A store holding the PKCE-protected `codeP`. -/
def storeP : AuthCodeStore := [("oauth:code:codeP", codeDataP)]

/-- The refresh token minted for `userAnn` at time 0: no `client_id` claim,
because `_handle_authorization_code_grant` passes only the user id to
`create_refresh_token`. -/
def refreshAnn : JwtToken :=
  .signed
    { token_type := "refresh", sub := some "u1", email := none,
      client_id := none, scope := none, exp := 2592000, iat := 0 }

/-- The response of exchanging `codeA` from `storeA` as `clientApp` at time 0
(checked by `decide` in the witnesses). -/
def respA : TokenResponse :=
  { access_token := .signed
      { token_type := "access", sub := some "u1",
        email := some "ann@example.com", client_id := some "app",
        scope := some "openid", exp := 3600, iat := 0 },
    token_type := "Bearer", expires_in := 3600,
    refresh_token := some refreshAnn,
    id_token := some
      { iss := "https://auth.example", sub := "u1", aud := "app", exp := 3600,
        iat := 0, auth_time := 0, email := "ann@example.com",
        email_verified := true, name := some "Ann Lee", nonce := none },
    scope := "openid" }


-- ============================================================================
-- Helper lemmas
-- ============================================================================

/-- Storing a code makes it retrievable. -/
theorem get_auth_code_store_self (c : String) (d : AuthCodeData) (s : AuthCodeStore) :
    get_auth_code c (store_auth_code c d s) = some d := by
  simp [get_auth_code, store_auth_code, List.find?]

/-- Deleting a code removes every binding of its key. -/
theorem get_auth_code_delete_self (c : String) (s : AuthCodeStore) :
    get_auth_code c (delete_auth_code c s) = none := by
  simp only [get_auth_code, delete_auth_code, Option.map_eq_none',
    List.find?_eq_none]
  intro x hx
  have h := (List.mem_filter.mp hx).2
  simp only [bne_iff_ne, ne_eq] at h
  simp [beq_iff_eq, h]

-- ============================================================================
-- C9 — cache failures degrade to miss / False
-- ============================================================================

/-- C9: in the cache service, a missing Redis connection or an exception from
the underlying store never propagates: a failed `_get` returns `None` (a cache
miss), a failed `_set` or `_delete` returns `False`; non-propagation itself is
structural, since the functions return plain `Option`/`Bool` values in every
case.  A completed call still succeeds, so the failure cases are exactly the
degraded ones. -/
theorem cache_failures_degrade_gracefully :
    (∀ call, cache_get none call = none) ∧
    cache_get (some ()) .raises = none ∧
    (∀ call, cache_set none call = false) ∧
    cache_set (some ()) .raises = false ∧
    (∀ call, cache_delete none call = false) ∧
    cache_delete (some ()) .raises = false ∧
    cache_set (some ()) (.ok ()) = true ∧
    cache_delete (some ()) (.ok ()) = true :=
  ⟨fun _ => rfl, rfl, fun _ => rfl, rfl, fun _ => rfl, rfl, rfl, rfl⟩

-- ============================================================================
-- C6 — the RBAC role hierarchy
-- ============================================================================

/-- C6: the role hierarchy is the fixed total order
`super_admin(4) > owner(3) > admin(2) > member(1) > viewer(0)`; every role
name outside this set maps to level `-1` and compares lower than every known
role, and `has_higher_role a b` is true exactly when
`get_role_level a ≥ get_role_level b`. -/
theorem role_hierarchy_fixed_total_order :
    (get_role_level "super_admin" = 4 ∧ get_role_level "owner" = 3 ∧
     get_role_level "admin" = 2 ∧ get_role_level "member" = 1 ∧
     get_role_level "viewer" = 0) ∧
    (∀ r : String, r ∉ ["super_admin", "owner", "admin", "member", "viewer"] →
      get_role_level r = -1) ∧
    (∀ r : String, r ∉ ["super_admin", "owner", "admin", "member", "viewer"] →
      ∀ k ∈ ["super_admin", "owner", "admin", "member", "viewer"],
        get_role_level r < get_role_level k) ∧
    (∀ a b : String,
      has_higher_role a b = true ↔ get_role_level a ≥ get_role_level b) := by
  have hunk : ∀ r : String,
      r ∉ ["super_admin", "owner", "admin", "member", "viewer"] →
      get_role_level r = -1 := by
    intro r hr
    simp only [List.mem_cons, List.not_mem_nil, or_false, not_or] at hr
    obtain ⟨h1, h2, h3, h4, h5⟩ := hr
    have b1 : (("super_admin" : String) == r) = false :=
      beq_eq_false_iff_ne.mpr (Ne.symm h1)
    have b2 : (("owner" : String) == r) = false :=
      beq_eq_false_iff_ne.mpr (Ne.symm h2)
    have b3 : (("admin" : String) == r) = false :=
      beq_eq_false_iff_ne.mpr (Ne.symm h3)
    have b4 : (("member" : String) == r) = false :=
      beq_eq_false_iff_ne.mpr (Ne.symm h4)
    have b5 : (("viewer" : String) == r) = false :=
      beq_eq_false_iff_ne.mpr (Ne.symm h5)
    simp [get_role_level, ROLE_HIERARCHY, List.find?, b1, b2, b3, b4, b5]
  refine ⟨by decide, hunk, ?_, ?_⟩
  · intro r hr k hk
    rw [hunk r hr]
    simp only [List.mem_cons, List.not_mem_nil, or_false] at hk
    rcases hk with rfl | rfl | rfl | rfl | rfl <;> decide
  · intro a b
    simp [has_higher_role, ge_iff_le]

/-- C6 witness: the unknown role maps to `-1`, sits below `viewer`, and the
comparison is the level comparison at a concrete pair. -/
theorem role_hierarchy_fixed_total_order_witness :
    get_role_level "unknown" = -1 ∧
    get_role_level "unknown" < get_role_level "viewer" ∧
    (has_higher_role "member" "viewer" = true ↔
      get_role_level "member" ≥ get_role_level "viewer") :=
  ⟨role_hierarchy_fixed_total_order.2.1 "unknown" (by decide),
   role_hierarchy_fixed_total_order.2.2.1 "unknown" (by decide) "viewer" (by decide),
   role_hierarchy_fixed_total_order.2.2.2 "member" "viewer"⟩

-- ============================================================================
-- C3 — revocation records no blacklist entry (code bug)
-- ============================================================================

/-- C3 (divergence witness): the revocation endpoint never writes the
blacklist — the store it returns is the store it was given, and its only
outcomes are the unconditional success message or a 401 for a confidential
client with a bad secret.  The claim (and the code's own comment) call for a
blacklist entry keyed by the token id with the token's remaining lifetime as
TTL; no such write exists. -/
theorem revoke_records_no_blacklist_entry :
    ∀ tok cid csec clients bl,
      (revoke tok cid csec clients bl).2 = bl ∧
      ((revoke tok cid csec clients bl).1 = .ok "Token revoked" ∨
       (revoke tok cid csec clients bl).1 = .error ⟨401, "invalid_client"⟩) := by
  intro tok cid csec clients bl
  unfold revoke
  by_cases h : revokeAuthFailed cid csec clients <;> simp [h]

-- ============================================================================
-- C5 — redirect_uri validation is exact match on normalized URIs
-- ============================================================================

/-- C5: `_validate_redirect_uri` accepts exactly when the normalized supplied
URI (scheme + host + path with trailing slashes stripped) equals the
normalized form of some registered URI; and in `authorize_get` (past the
response-type and client checks) a failed validation is exactly the
`invalid_redirect_uri` rejection. -/
theorem redirect_uri_exact_normalized_match :
    (∀ (uri : String) (allowed : List String),
      validate_redirect_uri uri allowed = true ↔
        ∃ a ∈ allowed, normalizeUri uri = normalizeUri a) ∧
    (∀ cid ruri scope state nonce cch ccm clients user code now store
        (client : OAuthClient),
      clients.find? (fun c => c.client_id == cid) = some client →
      client.is_active = true →
      ((validate_redirect_uri ruri client.redirect_uris = false →
        (authorize_get "code" cid ruri scope state nonce cch ccm clients user
            code now store).1 =
          .error ⟨400, "invalid_redirect_uri: URI not registered for this client"⟩) ∧
       (validate_redirect_uri ruri client.redirect_uris = true →
        (authorize_get "code" cid ruri scope state nonce cch ccm clients user
            code now store).1 ≠
          .error ⟨400, "invalid_redirect_uri: URI not registered for this client"⟩))) := by
  constructor
  · intro uri allowed
    simp [validate_redirect_uri, List.any_eq_true, beq_iff_eq]
  · intro cid ruri scope state nonce cch ccm clients user code now store
      client hfind hact
    constructor
    · intro hval
      simp [authorize_get, hfind, hact, hval]
    · intro hval
      simp only [authorize_get, hfind, hact, hval]
      split
      · simp
      · split
        · simp
        · split
          · simp
          · split <;> simp

/-- C5 witness: one registered URI, matched by a supplied URI that differs
only in a trailing slash; and a mismatched URI is rejected. -/
theorem redirect_uri_exact_normalized_match_witness :
    (validate_redirect_uri "https://app.example.com/cb/"
        ["https://app.example.com/cb"] = true ↔
      ∃ a ∈ ["https://app.example.com/cb"],
        normalizeUri "https://app.example.com/cb/" = normalizeUri a) ∧
    (authorize_get "code" "app" "https://evil.example.com/cb" "openid" none none
        none none
        [{ client_id := "app", client_secret := "s",
           redirect_uris := ["https://app.example.com/cb"], is_active := true,
           is_confidential := false, name := "App" }] none "newcode" 0 []).1 =
      .error ⟨400, "invalid_redirect_uri: URI not registered for this client"⟩ := by
  constructor
  · exact redirect_uri_exact_normalized_match.1 "https://app.example.com/cb/"
      ["https://app.example.com/cb"]
  · exact (redirect_uri_exact_normalized_match.2 "app" "https://evil.example.com/cb"
      "openid" none none none none
      [{ client_id := "app", client_secret := "s",
         redirect_uris := ["https://app.example.com/cb"], is_active := true,
         is_confidential := false, name := "App" }] none "newcode" 0 []
      { client_id := "app", client_secret := "s",
        redirect_uris := ["https://app.example.com/cb"], is_active := true,
        is_confidential := false, name := "App" } (by decide)
      (by decide)).1 (by decide)

-- ============================================================================
-- C10 — an omitted code_challenge_method defaults to S256
-- ============================================================================

/-- C10: an authorize request that supplies a `code_challenge` but omits
`code_challenge_method` stores the method as `"S256"`, so the later exchange
verifies by the S256 equation and any verifier whose SHA-256 does not match
the stored challenge — in particular the raw challenge itself, under plain
semantics, unless it accidentally satisfies the S256 equation — is rejected
with `invalid_grant`. -/
theorem authorize_pkce_method_defaults_to_s256 :
    ∀ cid ruri scope state nonce ch clients (user : User) code now store
        (client : OAuthClient) users2 now2 burl v,
      clients.find? (fun c => c.client_id == cid) = some client →
      client.is_active = true →
      validate_redirect_uri ruri client.redirect_uris = true →
      (ch != "") = true →
      (code != "") = true →
      (v != "") = true →
      b64urlNoPad (sha256 (strBytes v)) ≠ ch →
      (get_auth_code code (authorize_get "code" cid ruri scope state nonce
          (some ch) none clients (some user) code now store).2 =
        some { client_id := cid, user_id := user.id, redirect_uri := ruri,
               scope := scope, nonce := nonce, code_challenge := some ch,
               code_challenge_method := "S256",
               expires_at := now + AUTH_CODE_TTL }) ∧
      (handle_authorization_code_grant (some code) none client (some v) users2
          now2 burl (authorize_get "code" cid ruri scope state nonce (some ch)
            none clients (some user) code now store).2).1 =
        .error ⟨400, "invalid_grant: PKCE verification failed"⟩ := by
  intro cid ruri scope state nonce ch clients user code now store client
    users2 now2 burl v hfind hact hval hch hcode hv hne
  have hcid : client.client_id = cid := by
    have := List.find?_some hfind
    simpa [beq_iff_eq] using this
  have hstore : (authorize_get "code" cid ruri scope state nonce (some ch) none
      clients (some user) code now store).2 =
      store_auth_code code
        { client_id := cid, user_id := user.id, redirect_uri := ruri,
          scope := scope, nonce := nonce, code_challenge := some ch,
          code_challenge_method := "S256",
          expires_at := now + AUTH_CODE_TTL } store := by
    simp [authorize_get, hfind, hact, hval, methodSupported, pyOr]
  rw [hstore]
  refine ⟨get_auth_code_store_self _ _ _, ?_⟩
  have hbe : (b64urlNoPad (sha256 (strBytes v)) == ch) = false :=
    beq_eq_false_iff_ne.mpr hne
  simp [handle_authorization_code_grant, pyTruthy, hcode, hv, hch,
    get_auth_code_store_self, hcid, verify_pkce, hbe]

/-- C10 witness: a challenge registered without a method is stored as S256,
and presenting the raw challenge itself as the verifier (plain semantics) is
rejected with `invalid_grant` — the challenge does not satisfy its own S256
equation. -/
theorem authorize_pkce_method_defaults_to_s256_witness :
    (handle_authorization_code_grant (some "codeA") none
        { client_id := "app", client_secret := "s",
          redirect_uris := ["https://app.example.com/cb"], is_active := true,
          is_confidential := false, name := "App" }
        (some "plain-challenge-value")
        [] 0 "https://auth.example"
        (authorize_get "code" "app" "https://app.example.com/cb" "openid" none
          none (some "plain-challenge-value") none
          [{ client_id := "app", client_secret := "s",
             redirect_uris := ["https://app.example.com/cb"], is_active := true,
             is_confidential := false, name := "App" }]
          (some { id := "u1", email := "ann@example.com", email_verified := true,
                  name := some "Ann Lee", avatar_url := none,
                  updated_at := none })
          "codeA" 0 []).2).1 =
      .error ⟨400, "invalid_grant: PKCE verification failed"⟩ :=
  (authorize_pkce_method_defaults_to_s256 "app" "https://app.example.com/cb"
    "openid" none none "plain-challenge-value"
    [{ client_id := "app", client_secret := "s",
       redirect_uris := ["https://app.example.com/cb"], is_active := true,
       is_confidential := false, name := "App" }]
    { id := "u1", email := "ann@example.com", email_verified := true,
      name := some "Ann Lee", avatar_url := none, updated_at := none }
    "codeA" 0 []
    { client_id := "app", client_secret := "s",
      redirect_uris := ["https://app.example.com/cb"], is_active := true,
      is_confidential := false, name := "App" }
    [] 0 "https://auth.example" "plain-challenge-value"
    (by decide) (by decide) (by decide) (by decide) (by decide) (by decide)
    (by decide)).2

-- ============================================================================
-- Inversion of a successful authorization_code exchange
-- ============================================================================

/-- A successful `authorization_code` exchange pins down the path taken: the
code was supplied and found, it belonged to the exchanging client, the store
afterwards is the store with the code deleted, the code's user exists, and
the refresh token returned is the one minted for that user. -/
theorem handle_authorization_code_grant_ok_inv :
    ∀ code ru (client : OAuthClient) cv users now burl store resp store',
      handle_authorization_code_grant code ru client cv users now burl store =
        (.ok resp, store') →
      ∃ c code_data user,
        code = some c ∧ (c != "") = true ∧
        get_auth_code c store = some code_data ∧
        code_data.client_id = client.client_id ∧
        store' = delete_auth_code c store ∧
        users.find? (fun u => u.id == code_data.user_id) = some user ∧
        resp.refresh_token = some (create_refresh_token user.id now) := by
  intro code ru client cv users now burl store resp store' h
  cases code with
  | none => simp [handle_authorization_code_grant, pyTruthy] at h
  | some c =>
    by_cases hc : c = ""
    · subst hc
      simp [handle_authorization_code_grant, pyTruthy] at h
    · have hct : (c != "") = true := by simpa using hc
      simp only [handle_authorization_code_grant, pyTruthy, hct,
        Bool.not_true, Bool.false_eq_true, if_false, Option.getD_some] at h
      split at h
      · simp at h
      · split at h
        · simp at h
        · split at h
          · simp at h
          · split at h
            · simp at h
            · split at h
              · simp at h
              · split at h
                · simp at h
                · rename_i x1 data heq hne1 hne2 hne3 hne4 x2 user hu
                  simp only [Prod.mk.injEq, Except.ok.injEq] at h
                  refine ⟨c, data, user, rfl, hct, heq, ?_, h.2.symm, hu, ?_⟩
                  · simpa using hne1
                  · rw [← h.1]


-- ============================================================================
-- C1 — authorization codes are single use
-- ============================================================================

/-- C1: a successful `authorization_code` exchange leaves the store with the
code deleted (the deletion happens before the user lookup and token issuance
in the source, and the store returned on success is exactly the input store
minus the code), so the code no longer resolves, and any later exchange
presenting the same code — whatever client, verifier, user table or time —
fails with `invalid_grant`.  Deletion is the only transition out of the
issued state besides TTL expiry (key disappearance), and both are terminal:
no operation of the provider re-creates a consumed code. -/
theorem authorization_code_single_use :
    ∀ code ru (client : OAuthClient) cv users now burl store resp store' c,
      handle_authorization_code_grant code ru client cv users now burl store =
        (.ok resp, store') →
      code = some c →
      store' = delete_auth_code c store ∧
      get_auth_code c store' = none ∧
      ∀ ru2 (client2 : OAuthClient) cv2 users2 now2 burl2,
        (handle_authorization_code_grant (some c) ru2 client2 cv2 users2 now2
          burl2 store').1 =
          .error ⟨400, "invalid_grant: Code not found or expired"⟩ := by
  intro code ru client cv users now burl store resp store' c h hcode
  obtain ⟨c', data, user, hc', hct, hget, hcid, hstore, hu, hrt⟩ :=
    handle_authorization_code_grant_ok_inv code ru client cv users now burl
      store resp store' h
  rw [hcode] at hc'
  injection hc' with hcc
  subst hcc
  subst hstore
  refine ⟨rfl, get_auth_code_delete_self c store, ?_⟩
  intro ru2 client2 cv2 users2 now2 burl2
  simp [handle_authorization_code_grant, pyTruthy, hct,
    get_auth_code_delete_self c store]

/-- C1 witness: a concrete exchange of code `codeA` succeeds and empties the
store; replaying `codeA` (even at a later time) gets `invalid_grant`. -/
theorem authorization_code_single_use_witness :
    get_auth_code "codeA" ([] : AuthCodeStore) = none ∧
    (handle_authorization_code_grant (some "codeA") none clientApp none
        [userAnn] 5 "https://auth.example" ([] : AuthCodeStore)).1 =
      .error ⟨400, "invalid_grant: Code not found or expired"⟩ := by
  have h : handle_authorization_code_grant (some "codeA") none clientApp none
      [userAnn] 0 "https://auth.example" storeA =
      (Except.ok respA, ([] : AuthCodeStore)) := by decide
  have hsu := authorization_code_single_use (some "codeA") none clientApp none
    [userAnn] 0 "https://auth.example" storeA respA [] "codeA" h rfl
  exact ⟨hsu.2.1, hsu.2.2 none clientApp none [userAnn] 5 "https://auth.example"⟩

-- ============================================================================
-- C4 — the refresh round trip (code bug: refresh tokens carry no client_id)
-- ============================================================================

/-- C4 (divergence witness): a refresh token returned by a successful
`authorization_code` exchange can never be redeemed.  The issuing path calls
`create_refresh_token(user_id=...)` with no client claim, while
`_handle_refresh_token_grant` requires the embedded `client_id` to equal the
authenticating client's id, so the comparison is `None != client_id` and the
exchange fails with `invalid_grant: Token was not issued to this client`
whenever the token still verifies (and with `invalid_grant: Invalid refresh
token` once expired) — for every client, including the client the code was
issued to; it never succeeds. -/
theorem oauth_refresh_round_trip_fails :
    ∀ code ru (client : OAuthClient) cv users now burl store resp store' rt
        (client2 : OAuthClient) users2 now2,
      handle_authorization_code_grant code ru client cv users now burl store =
        (.ok resp, store') →
      resp.refresh_token = some rt →
      (now2 < now + REFRESH_TOKEN_TTL →
        handle_refresh_token_grant (some rt) client2 users2 now2 =
          .error ⟨400, "invalid_grant: Token was not issued to this client"⟩) ∧
      ∀ r, handle_refresh_token_grant (some rt) client2 users2 now2 ≠ .ok r := by
  intro code ru client cv users now burl store resp store' rt client2 users2
    now2 h hrt
  obtain ⟨c, data, user, _, _, _, _, _, _, hrt'⟩ :=
    handle_authorization_code_grant_ok_inv code ru client cv users now burl
      store resp store' h
  rw [hrt] at hrt'
  injection hrt' with he
  subst he
  constructor
  · intro hlt
    simp [handle_refresh_token_grant, verify_token, create_refresh_token, hlt]
  · intro r hr
    by_cases hlt : now2 < now + REFRESH_TOKEN_TTL
    · simp [handle_refresh_token_grant, verify_token, create_refresh_token,
        hlt] at hr
    · simp [handle_refresh_token_grant, verify_token, create_refresh_token,
        hlt] at hr

/-- C4 witness: the concrete refresh token minted by the concrete `codeA`
exchange is rejected with `invalid_grant` when presented back by the very
same client. -/
theorem oauth_refresh_round_trip_fails_witness :
    handle_refresh_token_grant (some refreshAnn) clientApp [userAnn] 5 =
      .error ⟨400, "invalid_grant: Token was not issued to this client"⟩ := by
  have h : handle_authorization_code_grant (some "codeA") none clientApp none
      [userAnn] 0 "https://auth.example" storeA =
      (Except.ok respA, ([] : AuthCodeStore)) := by decide
  exact (oauth_refresh_round_trip_fails (some "codeA") none clientApp none
    [userAnn] 0 "https://auth.example" storeA respA [] refreshAnn clientApp
    [userAnn] 5 h rfl).1 (by decide)

-- ============================================================================
-- C2 — PKCE verification gates the exchange
-- ============================================================================

/-- C2: when the stored code carries a PKCE challenge, the exchange fails
`invalid_request` without a verifier and `invalid_grant` with a verifier that
does not satisfy the stored method, while a satisfying verifier passes the
PKCE gate (neither PKCE error can be the outcome); and satisfying the method
means exactly `BASE64URL(SHA256(verifier)) = challenge` for `S256` and
`verifier = challenge` for `plain`. -/
theorem pkce_exchange_gate :
    ∀ (client : OAuthClient) (c : String) cv users now burl store
        (data : AuthCodeData) ch,
      get_auth_code c store = some data →
      (c != "") = true →
      data.code_challenge = some ch →
      (ch != "") = true →
      data.client_id = client.client_id →
      ((pyTruthy cv = false →
        (handle_authorization_code_grant (some c) none client cv users now
          burl store).1 =
          .error ⟨400, "invalid_request: code_verifier required"⟩) ∧
       (∀ v, cv = some v → (v != "") = true →
        verify_pkce v ch data.code_challenge_method = false →
        (handle_authorization_code_grant (some c) none client cv users now
          burl store).1 =
          .error ⟨400, "invalid_grant: PKCE verification failed"⟩) ∧
       (∀ v, cv = some v → (v != "") = true →
        verify_pkce v ch data.code_challenge_method = true →
        (handle_authorization_code_grant (some c) none client cv users now
          burl store).1 ≠
          .error ⟨400, "invalid_request: code_verifier required"⟩ ∧
        (handle_authorization_code_grant (some c) none client cv users now
          burl store).1 ≠
          .error ⟨400, "invalid_grant: PKCE verification failed"⟩)) ∧
      (∀ v, verify_pkce v ch "S256" = true ↔
        b64urlNoPad (sha256 (strBytes v)) = ch) ∧
      (∀ v, verify_pkce v ch "plain" = true ↔ v = ch) := by
  intro client c cv users now burl store data ch hget hct hch hcht hcid
  refine ⟨⟨?_, ?_, ?_⟩, ?_, ?_⟩
  · intro hcv
    cases cv with
    | none =>
      simp [handle_authorization_code_grant, pyTruthy, hct, hget, hcid, hch,
        hcht]
    | some v =>
      have hvf : (v != "") = false := by simpa [pyTruthy] using hcv
      simp [handle_authorization_code_grant, pyTruthy, hct, hget, hcid, hch,
        hcht, hvf]
  · intro v hv hvt hpk
    subst hv
    simp [handle_authorization_code_grant, pyTruthy, hct, hget, hcid, hch,
      hcht, hvt, hpk]
  · intro v hv hvt hpk
    subst hv
    rcases hfind : users.find? (fun u => u.id == data.user_id) with _ | user <;>
      simp [handle_authorization_code_grant, pyTruthy, hct, hget, hcid, hch,
        hcht, hvt, hpk, hfind]
  · intro v
    simp [verify_pkce, beq_iff_eq]
  · intro v
    simp [verify_pkce, beq_iff_eq]

/-- C2 witness: for the concrete PKCE-protected `codeP` — no verifier is
`invalid_request`, a wrong verifier is `invalid_grant`, and the verifier
whose SHA-256 matches the stored challenge satisfies the S256 equation. -/
theorem pkce_exchange_gate_witness :
    (handle_authorization_code_grant (some "codeP") none clientApp none
        [userAnn] 0 "https://auth.example" storeP).1 =
      .error ⟨400, "invalid_request: code_verifier required"⟩ ∧
    (handle_authorization_code_grant (some "codeP") none clientApp
        (some "wrong-verifier") [userAnn] 0 "https://auth.example" storeP).1 =
      .error ⟨400, "invalid_grant: PKCE verification failed"⟩ ∧
    verify_pkce "test-code-verifier" challengeP "S256" = true := by
  refine ⟨?_, ?_, ?_⟩
  · exact (pkce_exchange_gate clientApp "codeP" none [userAnn] 0
      "https://auth.example" storeP codeDataP challengeP (by decide)
      (by decide) (by decide) (by decide) (by decide)).1.1 rfl
  · exact (pkce_exchange_gate clientApp "codeP" (some "wrong-verifier")
      [userAnn] 0 "https://auth.example" storeP codeDataP challengeP
      (by decide) (by decide) (by decide) (by decide) (by decide)).1.2.1
      "wrong-verifier" rfl (by decide) (by decide)
  · exact ((pkce_exchange_gate clientApp "codeP" none [userAnn] 0
      "https://auth.example" storeP codeDataP challengeP (by decide)
      (by decide) (by decide) (by decide) (by decide)).2.1
      "test-code-verifier").mpr (by decide)


-- ============================================================================
-- C7 — introspection (corrected: user existence is not checked)
-- ============================================================================

/-- C7 counterexample: a signed, unexpired access token whose subject `u1`
exists in no user table introspects as active — the endpoint never consults
the user store — so the claim's "or the embedded user does not exist" failure
condition is false. -/
theorem introspect_active_for_deleted_user :
    verify_token
        (.signed ⟨"access", some "u1", none, some "app", some "openid", 100, 0⟩)
        "access" 10 =
      some ⟨"access", some "u1", none, some "app", some "openid", 100, 0⟩ ∧
    ([] : List User).find? (fun u => u.id == "u1") = none ∧
    introspect
        (.signed ⟨"access", some "u1", none, some "app", some "openid", 100, 0⟩)
        none (some "app") none [clientApp] 10 =
      .ok (.active (some "u1") (some "app") (some "openid") (some 100) (some 0)
        "access") := by
  decide

/-- C7 (amended): after successful client authentication, the introspection
endpoint returns exactly `{active: false}` — a constructor carrying no other
field — for every token that does not verify (bad signature, malformed,
expired, or wrong type against the effective hint), and the active document
with the token's claims for every token that verifies; the embedded user's
existence is never checked. -/
theorem introspect_active_flag :
    ∀ (tok : JwtToken) hint cid csec clients now (client : OAuthClient),
      pyTruthy cid = true →
      clients.find? (fun c => c.client_id == cid.getD "") = some client →
      client.is_active = true →
      (client.is_confidential && !client.verify_secret (csec.getD "")) = false →
      (verify_token tok (pyOr hint "access") now = none →
        introspect tok hint cid csec clients now = .ok .inactive) ∧
      (∀ p, verify_token tok (pyOr hint "access") now = some p →
        introspect tok hint cid csec clients now =
          .ok (.active p.sub p.client_id p.scope (some p.exp) (some p.iat)
            (pyOr hint "access"))) := by
  intro tok hint cid csec clients now client hcid hfind hact hsec
  constructor
  · intro hv
    simp [introspect, hcid, hfind, hact, hsec, hv]
  · intro p hv
    simp [introspect, hcid, hfind, hact, hsec, hv]

/-- C7 witness: an expired concrete token introspects to the bare inactive
document, and the valid one to the active document, through the theorem. -/
theorem introspect_active_flag_witness :
    introspect (.signed ⟨"access", some "u1", none, some "app", some "openid",
        100, 0⟩) none (some "app") none [clientApp] 200 = .ok .inactive ∧
    introspect (.signed ⟨"access", some "u1", none, some "app", some "openid",
        100, 0⟩) none (some "app") none [clientApp] 10 =
      .ok (.active (some "u1") (some "app") (some "openid") (some 100) (some 0)
        "access") := by
  constructor
  · exact (introspect_active_flag
      (.signed ⟨"access", some "u1", none, some "app", some "openid", 100, 0⟩)
      none (some "app") none [clientApp] 200 clientApp (by decide) (by decide)
      (by decide) (by decide)).1 (by decide)
  · exact (introspect_active_flag
      (.signed ⟨"access", some "u1", none, some "app", some "openid", 100, 0⟩)
      none (some "app") none [clientApp] 10 clientApp (by decide) (by decide)
      (by decide) (by decide)).2
      ⟨"access", some "u1", none, some "app", some "openid", 100, 0⟩
      (by decide)

-- ============================================================================
-- C8 — userinfo claim release (corrected: openid also releases claims)
-- ============================================================================

/-- C8 counterexample: an access token whose scope is exactly `openid` — a
scope containing neither `email` nor `profile` — receives the full email and
profile claims, not the bare `sub`, because the source also releases each
claim group when the scope mentions `openid`. -/
theorem userinfo_openid_scope_counterexample :
    pyIn "email" "openid" = false ∧
    pyIn "profile" "openid" = false ∧
    userinfo
        (.signed ⟨"access", some "u1", none, some "app", some "openid", 100, 0⟩)
        [userAnn] 10 =
      .ok ⟨"u1", some "ann@example.com", some true, some "Ann Lee", some "Ann",
        some "Lee", some "https://cdn.example.com/a.png",
        some 1700000000⟩ := by
  decide

/-- C8 (amended): the userinfo endpoint releases claims by scope with
`openid` as a third trigger: `email`/`email_verified` are populated exactly
when the scope contains `email` or `openid`; `name`, `given_name`,
`family_name` (for a user with a truthy multi-part name), `picture` and
`updated_at` (when set on the user) exactly when the scope contains `profile`
or `openid`; and when the scope contains none of `email`, `profile`,
`openid`, the response is exactly the bare-`sub` document. -/
theorem userinfo_scope_claim_release :
    ∀ (tok : JwtToken) users now (p : JwtPayload) (user : User) scope nm r,
      verify_token tok "access" now = some p →
      p.sub.bind (fun uid => users.find? (fun u => u.id == uid)) = some user →
      p.scope = some scope →
      user.name = some nm →
      (nm != "") = true →
      user.avatar_url ≠ none →
      user.updated_at ≠ none →
      userinfo tok users now = .ok r →
      ((r.email ≠ none ↔ (pyIn "email" scope || pyIn "openid" scope) = true) ∧
       (r.email_verified ≠ none ↔
         (pyIn "email" scope || pyIn "openid" scope) = true) ∧
       (r.name ≠ none ↔ (pyIn "profile" scope || pyIn "openid" scope) = true) ∧
       (r.given_name ≠ none ↔
         (pyIn "profile" scope || pyIn "openid" scope) = true) ∧
       (r.picture ≠ none ↔ (pyIn "profile" scope || pyIn "openid" scope) = true) ∧
       (r.updated_at ≠ none ↔
         (pyIn "profile" scope || pyIn "openid" scope) = true) ∧
       ((pyIn "email" scope = false ∧ pyIn "profile" scope = false ∧
         pyIn "openid" scope = false) →
        r = { sub := user.id, email := none, email_verified := none,
              name := none, given_name := none, family_name := none,
              picture := none, updated_at := none })) := by
  intro tok users now p user scope nm r hv hbind hscope hnm hnmt hav hup hr
  simp only [userinfo, hv, hbind, hscope, Option.getD_some] at hr
  by_cases he : (pyIn "email" scope || pyIn "openid" scope) = true <;>
    by_cases hp : (pyIn "profile" scope || pyIn "openid" scope) = true
  · simp only [he, hp, if_true, hnm, pyTruthy] at hr
    rw [Except.ok.injEq] at hr
    subst hr
    simp_all [Bool.or_eq_true]
    try
      intro h1 h2
      rcases he with h | h
      · simp [h1] at h
      · exact h
  · simp only [he, hp, if_true, if_false, hnm, pyTruthy] at hr
    rw [Except.ok.injEq] at hr
    subst hr
    simp_all [Bool.or_eq_true]
    try
      intro h1 h2
      rcases he with h | h
      · simp [h1] at h
      · exact h
  · simp only [he, hp, if_true, if_false, hnm, pyTruthy] at hr
    rw [Except.ok.injEq] at hr
    subst hr
    simp_all [Bool.or_eq_true]
    try
      intro h1 h2
      rcases he with h | h
      · simp [h1] at h
      · exact h
  · simp only [he, hp, if_false, hnm, pyTruthy] at hr
    rw [Except.ok.injEq] at hr
    subst hr
    simp_all [Bool.or_eq_true]
    try
      intro h1 h2
      rcases he with h | h
      · simp [h1] at h
      · exact h

/-- C8 witness: the amended release pattern at the concrete scope `profile`:
the response for `userAnn` carries the profile claims but no email claim,
matching the two release conditions evaluated at that scope, through the
theorem at the concrete response record. -/
theorem userinfo_scope_claim_release_witness :
    ((⟨"u1", none, none, some "Ann Lee", some "Ann", some "Lee",
        some "https://cdn.example.com/a.png", some 1700000000⟩ :
        UserInfoResponse).email ≠ none ↔
      (pyIn "email" "profile" || pyIn "openid" "profile") = true) ∧
    ((⟨"u1", none, none, some "Ann Lee", some "Ann", some "Lee",
        some "https://cdn.example.com/a.png", some 1700000000⟩ :
        UserInfoResponse).name ≠ none ↔
      (pyIn "profile" "profile" || pyIn "openid" "profile") = true) := by
  have h := userinfo_scope_claim_release
    (.signed ⟨"access", some "u1", none, some "app", some "profile", 100, 0⟩)
    [userAnn] 10 ⟨"access", some "u1", none, some "app", some "profile", 100, 0⟩
    userAnn "profile" "Ann Lee"
    ⟨"u1", none, none, some "Ann Lee", some "Ann", some "Lee",
      some "https://cdn.example.com/a.png", some 1700000000⟩
    (by decide) (by decide) (by decide) (by decide) (by decide) (by decide)
    (by decide) (by decide)
  exact ⟨h.1, h.2.2.1⟩
